import Mathlib

/-!
Shallow embedding of the weather/crypto MCP repository.

Server side (src/src/server.py): the `call_tool` dispatcher with its four
tool branches, the upstream fetch helpers and the Python string formatting
they perform.  Upstream HTTP calls are modeled by an oracle (`Net`) giving
the outcome of each endpoint; Python exceptions are modeled by `PyErr` and
`Except`, with the try/except wrapper of `call_tool` reified as a total
function.

Client side (src/src/client.py): the tool-use loop `run_weather_query`,
final-text extraction, and the interactive REPL; the model backend is
modeled as the list of responses it returns to successive calls.  The
legacy root-level client (src/client.py), whose loop handles only the
first tool_use block of a turn, is embedded separately as `legacyLoop`.
-/

set_option linter.unusedVariables false

namespace WeatherMcp

/-- JSON-like values: tool arguments and upstream HTTP response bodies,
mirroring Python None/bool/float/str/list/dict values. -/
inductive JVal where
  | null
  | bool (b : Bool)
  | num (q : Rat)
  | str (s : String)
  | arr (xs : List JVal)
  | obj (fields : List (String × JVal))

/-- Python exceptions that can reach the except clauses of call_tool:
httpx.HTTPStatusError carries the response status code, every other
exception is carried with its str() rendering. -/
inductive PyErr where
  | httpStatusError (code : Nat) (msg : String)
  | exc (msg : String)
deriving DecidableEq

/-- mcp.types.TextContent with type="text". -/
structure TextContent where
  text : String
deriving DecidableEq, Repr

/-- Python truthiness of a JSON value, as tested by `if not city:`. -/
def jTruthy : JVal → Bool
  | .null => false
  | .bool b => b
  | .num q => q != 0
  | .str s => !s.isEmpty
  | .arr xs => !xs.isEmpty
  | .obj fs => !fs.isEmpty

/-- Python str.lower() (ASCII range, which covers the symbols and
currency codes involved), defined over the character list so that it
reduces in the kernel. -/
def pyLower (s : String) : String :=
  ⟨s.data.map Char.toLower⟩

/-- Python str.upper() (ASCII range), over the character list. -/
def pyUpper (s : String) : String :=
  ⟨s.data.map Char.toUpper⟩

/-- Python str.strip(): drop whitespace from both ends. -/
def pyStrip (s : String) : String :=
  ⟨((s.data.dropWhile Char.isWhitespace).reverse.dropWhile
      Char.isWhitespace).reverse⟩

/-- Group a reversed digit list into 3-digit chunks separated by commas,
fuel-bounded by the list length. -/
def commaChunksRev : Nat → List Char → List Char
  | 0, _ => []
  | _, [] => []
  | n + 1, xs =>
    let h := xs.take 3
    let t := xs.drop 3
    if t.isEmpty then h else h ++ (',' :: commaChunksRev n t)

/-- Insert thousands separators into a digit string, as the Python comma
format option does. -/
def groupThousands (s : String) : String :=
  (commaChunksRev s.length s.toList.reverse).reverse.asString

/-- Round n / d to the nearest natural, halves up. -/
def roundHalfUpNat (n d : Nat) : Nat := (2 * n + d) / (2 * d)

/-- Round q * 10 ^ prec to the nearest integer (ties away from zero). -/
def roundScaled (q : Rat) (prec : Nat) : Int :=
  let n : Int := q.num * (10 : Int) ^ prec
  if n ≥ 0 then (roundHalfUpNat n.toNat q.den : Int)
  else - (roundHalfUpNat (- n).toNat q.den : Int)

/-- Left-pad a digit string with zeros up to the given length. -/
def padZeros (s : String) (len : Nat) : String :=
  (List.replicate (len - s.length) '0').asString ++ s

/-- Fixed-point decimal rendering of a rational, as used for the Python
format codes of the form [+][,].precf. -/
def fmtFixed (q : Rat) (prec : Nat) (thousands : Bool) (forceSign : Bool) : String :=
  let v := roundScaled q prec
  let sgn := if v < 0 then "-" else if forceSign then "+" else ""
  let a := v.natAbs
  let p := 10 ^ prec
  let ipStr := if thousands then groupThousands (toString (a / p)) else toString (a / p)
  if prec = 0 then sgn ++ ipStr
  else sgn ++ ipStr ++ "." ++ padZeros (toString (a % p)) prec

/-- Python format(value, spec) for f-type format specs: numbers (and bools,
which are ints in Python) render as fixed point, a str value raises the
ValueError that formatting the "N/A" placeholder produces, other types
raise a TypeError. -/
def pyFmtF (v : JVal) (prec : Nat) (thousands : Bool) (forceSign : Bool) :
    Except PyErr String :=
  match v with
  | .num q => .ok (fmtFixed q prec thousands forceSign)
  | .bool b => .ok (fmtFixed (if b then 1 else 0) prec thousands forceSign)
  | .str _ => .error (.exc "Unknown format code \x27f\x27 for object of type \x27str\x27")
  | .null => .error (.exc "unsupported format string passed to NoneType.__format__")
  | .arr _ => .error (.exc "unsupported format string passed to list.__format__")
  | .obj _ => .error (.exc "unsupported format string passed to dict.__format__")

/-- Python str() of a value inside an f-string placeholder; float rendering
is approximated with two decimals (no claim depends on it). -/
def jstr : JVal → String
  | .null => "None"
  | .bool b => if b then "True" else "False"
  | .num q => if q.den = 1 then toString q.num else fmtFixed q 2 false false
  | .str s => s
  | .arr _ => "[...]"
  | .obj _ => "\x7b...\x7d"

/-- Python subscript d[k] with a string key: KeyError renders as the quoted
key, subscripting a non-dict raises a TypeError (message approximated). -/
def JVal.item : JVal → String → Except PyErr JVal
  | .obj fs, k =>
    match fs.lookup k with
    | some v => .ok v
    | none => .error (.exc ("\x27" ++ k ++ "\x27"))
  | _, _ => .error (.exc "object is not subscriptable")

/-- Python subscript xs[i] on a list. -/
def JVal.index : JVal → Nat → Except PyErr JVal
  | .arr xs, i =>
    match xs.get? i with
    | some v => .ok v
    | none => .error (.exc "list index out of range")
  | _, _ => .error (.exc "object is not subscriptable")

/-- Python d.get(k, default); calling .get on a non-dict raises an
AttributeError. -/
def jGetD : JVal → String → JVal → Except PyErr JVal
  | .obj fs, k, dflt => .ok ((fs.lookup k).getD dflt)
  | _, _, _ => .error (.exc "object has no attribute \x27get\x27")

/-- Python slice xs[:n] on a list. -/
def jSlice : JVal → Nat → Except PyErr (List JVal)
  | .arr xs, n => .ok (xs.take n)
  | _, _ => .error (.exc "object is not subscriptable")

/-- Python .lower(): requires a str. -/
def jLower : JVal → Except PyErr String
  | .str s => .ok (pyLower s)
  | _ => .error (.exc "object has no attribute \x27lower\x27")

/-- Python .upper(): requires a str. -/
def jUpper : JVal → Except PyErr String
  | .str s => .ok (pyUpper s)
  | _ => .error (.exc "object has no attribute \x27upper\x27")

/-- Python `k in v` membership: dict keys, list elements, substring for
str; other operand types raise a TypeError. -/
def jContainsKey : JVal → String → Except PyErr Bool
  | .obj fs, k => .ok (fs.lookup k).isSome
  | .arr xs, k =>
    .ok (xs.any fun v => match v with | .str s => s == k | _ => false)
  | .str s, k => .ok (k.isEmpty || (s.splitOn k).length > 1)
  | _, _ => .error (.exc "argument is not iterable")

/-- Python a * b for the amount conversion; bools behave as ints. -/
def jMul : JVal → JVal → Except PyErr JVal
  | .num a, .num b => .ok (.num (a * b))
  | .bool a, .num b => .ok (.num ((if a then (1 : Rat) else 0) * b))
  | .num a, .bool b => .ok (.num (a * (if b then (1 : Rat) else 0)))
  | _, _ => .error (.exc "unsupported operand type(s) for *")

/-- Outcome of one upstream HTTP GET: a 2xx JSON body, a raise_for_status
failure carrying the status code, or any other raised exception (timeout,
connection error, malformed JSON body, ...). -/
inductive Upstream where
  | ok (j : JVal)
  | httpStatus (code : Nat) (msg : String)
  | raise (msg : String)

/-- Oracle for the four upstream endpoints the server can hit. -/
structure Net where
  weather : JVal → Upstream
  forecast : JVal → Upstream
  crypto : String → Upstream
  exchange : String → Upstream

/-- Turn an upstream outcome into the Python control flow after
response.raise_for_status() and response.json(). -/
def runFetch : Upstream → Except PyErr JVal
  | .ok j => .ok j
  | .httpStatus c m => .error (.httpStatusError c m)
  | .raise m => .error (.exc m)

/-- The static symbol-to-CoinGecko-id table (src/src/server.py lines
35-63). -/
def CRYPTO_IDS : List (String × String) :=
  [("btc", "bitcoin"),
   ("eth", "ethereum"),
   ("usdt", "tether"),
   ("bnb", "binancecoin"),
   ("sol", "solana"),
   ("xrp", "ripple"),
   ("usdc", "usd-coin"),
   ("ada", "cardano"),
   ("doge", "dogecoin"),
   ("trx", "tron"),
   ("avax", "avalanche-2"),
   ("link", "chainlink"),
   ("dot", "polkadot"),
   ("matic", "matic-network"),
   ("shib", "shiba-inu"),
   ("pepe", "pepe"),
   ("wif", "dogwifcoin"),
   ("uni", "uniswap"),
   ("aave", "aave"),
   ("crv", "curve-dao-token")]

/-- CRYPTO_IDS.get(symbol.lower(), symbol.lower()) as performed at lines
199 and 298 of src/src/server.py. -/
def resolveCryptoId (symbol : String) : String :=
  (CRYPTO_IDS.lookup (pyLower symbol)).getD (pyLower symbol)

/-- fetch_weather: GET /weather?q=city, raise_for_status, json(). -/
def fetch_weather (city : JVal) (net : Net) : Except PyErr JVal :=
  runFetch (net.weather city)

/-- fetch_forecast: GET /forecast?q=city, raise_for_status, json(). -/
def fetch_forecast (city : JVal) (net : Net) : Except PyErr JVal :=
  runFetch (net.forecast city)

/-- fetch_crypto_prices: resolves the symbol through CRYPTO_IDS, then GET
simple/price?ids=crypto_id, raise_for_status, json(). -/
def fetch_crypto_prices (symbol : String) (net : Net) : Except PyErr JVal :=
  runFetch (net.crypto (resolveCryptoId symbol))

/-- fetch_exchange_rate: GET /v4/latest/FROM with the upper-cased source
currency, raise_for_status, json(). -/
def fetch_exchange_rate (fromUpper : String) (net : Net) : Except PyErr JVal :=
  runFetch (net.exchange fromUpper)

/-- Formatting of the current-weather result (lines 257-270), with dict
accesses performed in source order. -/
def formatWeather (data : JVal) : Except PyErr String := do
  let weatherArr ← data.item "weather"
  let weather ← weatherArr.index 0
  let mainObj ← data.item "main"
  let wind ← data.item "wind"
  let name ← data.item "name"
  let sys ← data.item "sys"
  let country ← sys.item "country"
  let temp ← mainObj.item "temp"
  let feels ← mainObj.item "feels_like"
  let wMain ← weather.item "main"
  let wDesc ← weather.item "description"
  let humidity ← mainObj.item "humidity"
  let pressure ← mainObj.item "pressure"
  let windSpeed ← wind.item "speed"
  let clouds ← data.item "clouds"
  let cloudsAll ← clouds.item "all"
  pure ("Current Weather in " ++ jstr name ++ ", " ++ jstr country ++
    ":\n            \n            Temperature: " ++ jstr temp ++
    "°C (feels like " ++ jstr feels ++ "°C)\n            Conditions: " ++
    jstr wMain ++ " - " ++ jstr wDesc ++ "\n            Humidity: " ++
    jstr humidity ++ "%\n            Pressure: " ++ jstr pressure ++
    " hPa\n            Wind Speed: " ++ jstr windSpeed ++
    " m/s\n            Cloudiness: " ++ jstr cloudsAll ++ "%\n            ")

/-- One line of the forecast listing (lines 284-288). -/
def forecastLine (f : JVal) : Except PyErr String := do
  let dt ← f.item "dt_txt"
  let mainObj ← f.item "main"
  let temp ← mainObj.item "temp"
  let weatherArr ← f.item "weather"
  let w0 ← weatherArr.index 0
  let cond ← w0.item "description"
  pure (jstr dt ++ ": " ++ jstr temp ++ "°C, " ++ jstr cond)

/-- Formatting of the forecast result (lines 281-288): first 8 entries of
data["list"], header from data["city"]. -/
def formatForecast (data : JVal) : Except PyErr String := do
  let listVal ← data.item "list"
  let forecasts ← jSlice listVal 8
  let city ← data.item "city"
  let cityName ← city.item "name"
  let country ← city.item "country"
  let lines ← forecasts.mapM forecastLine
  pure ("5-Day Weather Forecast for " ++ jstr cityName ++ ", " ++
    jstr country ++ ":\n\n" ++ String.join (lines.map (· ++ "\n")))

/-- Formatting of the crypto-price result (lines 310-315). -/
def formatCrypto (symbolUpper : String) (price change mcap : JVal) :
    Except PyErr String := do
  let pS ← pyFmtF price 2 true false
  let cS ← pyFmtF change 2 false true
  let mS ← pyFmtF mcap 0 true false
  pure (symbolUpper ++ " Price:\n\n            Price: $" ++ pS ++
    " USD\n            24h Change: " ++ cS ++
    "%\n            Market Cap: $" ++ mS ++ " USD\n            ")

/-- Formatting of the exchange-rate result (lines 337-342). -/
def formatExchange (fromU toU : String) (rate amount converted : JVal)
    (data : JVal) : Except PyErr String := do
  let rS ← pyFmtF rate 4 false false
  let aS ← pyFmtF amount 2 true false
  let cS ← pyFmtF converted 2 true false
  let date ← jGetD data "date" (.str "N/A")
  pure ("Exchange Rate - " ++ fromU ++ " to " ++ toU ++
    ":\n\n            Exchange Rate: 1 " ++ fromU ++ " = " ++ rS ++ " " ++
    toU ++ "\n            Conversion: " ++ aS ++ " " ++ fromU ++ " = " ++
    cS ++ " " ++ toU ++ "\n            Last Updated: " ++ jstr date ++
    "\n            ")

/-- Tool arguments: the Python dict passed to call_tool. -/
abbrev Args := List (String × JVal)

/-- The get_current_weather branch of call_tool (lines 248-270).  The
second component counts the upstream HTTP calls performed. -/
def weatherBranch (args : Args) (net : Net) :
    Except PyErr (List TextContent) × Nat :=
  match args.lookup "city" with
  | none => (.ok [⟨"Error: City name is required"⟩], 0)
  | some city =>
    if jTruthy city then
      match fetch_weather city net with
      | .error e => (.error e, 1)
      | .ok data => ((formatWeather data).map fun s => [TextContent.mk s], 1)
    else (.ok [⟨"Error: City name is required"⟩], 0)

/-- The get_weather_forecast branch of call_tool (lines 272-290). -/
def forecastBranch (args : Args) (net : Net) :
    Except PyErr (List TextContent) × Nat :=
  match args.lookup "city" with
  | none => (.ok [⟨"Error: City name is required"⟩], 0)
  | some city =>
    if jTruthy city then
      match fetch_forecast city net with
      | .error e => (.error e, 1)
      | .ok data => ((formatForecast data).map fun s => [TextContent.mk s], 1)
    else (.ok [⟨"Error: City name is required"⟩], 0)

/-- The get_crypto_price branch of call_tool (lines 292-316): symbol
truthiness check, symbol.lower() table translation, fetch, then extraction
with "N/A" defaults and f-type formatting of the three fields. -/
def cryptoBranch (args : Args) (net : Net) :
    Except PyErr (List TextContent) × Nat :=
  match args.lookup "symbol" with
  | none => (.ok [⟨"Error: Symbol is required"⟩], 0)
  | some symbol =>
    if jTruthy symbol then
      match symbol with
      | .str s =>
        let cryptoId := resolveCryptoId s
        match fetch_crypto_prices s net with
        | .error e => (.error e, 1)
        | .ok data =>
          (((do
            let cryptoData ← jGetD data cryptoId (.obj [])
            let price ← jGetD cryptoData "usd" (.str "N/A")
            let change ← jGetD cryptoData "usd_24h_change" (.str "N/A")
            let mcap ← jGetD cryptoData "usd_market_cap" (.str "N/A")
            formatCrypto (pyUpper s) price change mcap) :
              Except PyErr String).map fun t => [TextContent.mk t], 1)
      | _ => (.error (.exc "object has no attribute \x27lower\x27"), 0)
    else (.ok [⟨"Error: Symbol is required"⟩], 0)

/-- The get_exchange_rate branch of call_tool (lines 318-343). -/
def exchangeBranch (args : Args) (net : Net) :
    Except PyErr (List TextContent) × Nat :=
  let fromC := (args.lookup "from_currency").getD .null
  let toC := (args.lookup "to_currency").getD .null
  let amount := (args.lookup "amount").getD (.num 1)
  if jTruthy fromC && jTruthy toC then
    match jUpper fromC with
    | .error e => (.error e, 0)
    | .ok fromU =>
      match fetch_exchange_rate fromU net with
      | .error e => (.error e, 1)
      | .ok data =>
        (((do
          let rates ← jGetD data "rates" (.obj [])
          let toU ← jUpper toC
          let mem ← jContainsKey rates toU
          if mem then do
            let rate ← rates.item toU
            let converted ← jMul amount rate
            formatExchange fromU toU rate amount converted data
          else
            pure ("Error: Currency \x27" ++ toU ++ "\x27 not found")) :
            Except PyErr String).map fun t => [TextContent.mk t], 1)
  else (.ok [⟨"Error: Both from_currency and to_currency are required"⟩], 0)

/-- The body of the try block of call_tool (lines 247-347): dispatch on the
tool name, with the unknown-tool fallback. -/
def callToolAux (name : String) (args : Args) (net : Net) :
    Except PyErr (List TextContent) × Nat :=
  if name = "get_current_weather" then weatherBranch args net
  else if name = "get_weather_forecast" then forecastBranch args net
  else if name = "get_crypto_price" then cryptoBranch args net
  else if name = "get_exchange_rate" then exchangeBranch args net
  else (.ok [⟨"Error: Unknown tool \x27" ++ name ++ "\x27"⟩], 0)

/-- call_tool (lines 234-354): the try/except wrapper converting
httpx.HTTPStatusError (404 specialized) and every other exception into an
error text block.  Returns the result content together with the number of
upstream HTTP calls performed. -/
def call_tool (name : String) (args : Args) (net : Net) :
    List TextContent × Nat :=
  let r := callToolAux name args net
  (match r.1 with
   | .ok l => l
   | .error (.httpStatusError code msg) =>
     if code = 404 then [⟨"Error: Resource not found (404)"⟩]
     else [⟨"Error: API request failed - " ++ msg⟩]
   | .error (.exc msg) => [⟨"Error: " ++ msg⟩], r.2)

/-- Content blocks of an Anthropic model response: text blocks and
tool_use blocks (invocation id, tool name, input arguments). -/
inductive Block where
  | text (s : String)
  | toolUse (id : String) (name : String) (input : Args)

/-- block.type == "tool_use". -/
def Block.isToolUse : Block → Bool
  | .toolUse _ _ _ => true
  | _ => false

/-- hasattr(block, "text"): only text blocks carry a text attribute. -/
def Block.hasText : Block → Bool
  | .text _ => true
  | _ => false

/-- The text attribute of a text block. -/
def Block.textOf : Block → String
  | .text s => s
  | _ => ""

/-- The id attribute of a tool_use block. -/
def Block.idOf : Block → String
  | .toolUse i _ _ => i
  | _ => ""

/-- One model response: stop_reason and content blocks. -/
structure ModelResponse where
  stop_reason : String
  content : List Block

/-- Lines 99-102 of src/src/client.py: concatenate the .text of every item
of the MCP result content that has a text attribute (every TextContent
does). -/
def concatTexts (items : List TextContent) : String :=
  String.join (items.map TextContent.text)

/-- One entry of the tool_results list built by the loop (lines 105-109). -/
structure ToolResult where
  tool_use_id : String
  content : String

/-- One conversation message: the initial user text, an assistant message
carrying the full response content, or a user message carrying the
tool_results list. -/
inductive Message where
  | userText (s : String)
  | assistant (content : List Block)
  | userResults (results : List ToolResult)

/-- The session invocation entrypoint: session.call_tool(name, input)
yielding the result content list. -/
abbrev SessionFn := String → Args → List TextContent

/-- Lines 87-109 of src/src/client.py: for every tool_use block of the
response content, in order, call the session and build one tool_result
carrying that block's id. -/
def toolResultsFor (sess : SessionFn) (blocks : List Block) : List ToolResult :=
  (blocks.filter Block.isToolUse).map fun b =>
    match b with
    | .toolUse i n a => ⟨i, concatTexts (sess n a)⟩
    | .text _ => ⟨"", ""⟩

/-- The tool-use loop of run_weather_query (src/src/client.py lines
85-127).  The model backend is modeled as the list of responses it returns
to successive calls; the head answers the current call.  Returns (final
messages, final response, number of model calls made) or none when the
response list is exhausted while the loop still wants another turn. -/
def runLoop (sess : SessionFn) :
    List ModelResponse → List Message → Nat →
    Option (List Message × ModelResponse × Nat)
  | [], _, _ => none
  | r :: rest, msgs, calls =>
    if r.stop_reason = "tool_use" then
      runLoop sess rest
        (msgs ++ [Message.assistant r.content,
                  Message.userResults (toolResultsFor sess r.content)])
        (calls + 1)
    else
      some (msgs, r, calls + 1)

/-- Final text extraction (lines 130-133): the first block with a text
attribute, with the sentinel as the default of next(). -/
def finalText (blocks : List Block) : String :=
  match blocks.find? Block.hasText with
  | some b => b.textOf
  | none => "No response generated"

/-- run_weather_query (src/src/client.py lines 57-133): the conversation
starts as the single user message with the query, the loop runs, and the
answer is extracted from the final response (which is never appended to
the messages list).  Returns (messages at completion, answer, model
calls). -/
def run_weather_query (query : String) (responses : List ModelResponse)
    (sess : SessionFn) : Option (List Message × String × Nat) :=
  match runLoop sess responses [Message.userText query] 0 with
  | some (msgs, final, calls) => some (msgs, finalText final.content, calls)
  | none => none

/-- Legacy tool_result (src/client.py lines 96-105): the raw result
content list is embedded as the tool_result content. -/
structure LToolResult where
  tool_use_id : String
  content : List TextContent

/-- Conversation message of the legacy root-level client. -/
inductive LMessage where
  | userText (s : String)
  | assistant (content : List Block)
  | userResults (results : List LToolResult)

/-- The legacy tool-use loop (src/client.py lines 81-113): each turn takes
only the FIRST tool_use block via next(...), calls the session for it, and
appends a single tool_result; next() raising StopIteration when no
tool_use block exists is modeled as none. -/
def legacyLoop (sess : SessionFn) :
    List ModelResponse → List LMessage → Nat →
    Option (List LMessage × ModelResponse × Nat)
  | [], _, _ => none
  | r :: rest, msgs, calls =>
    if r.stop_reason = "tool_use" then
      match r.content.find? Block.isToolUse with
      | some (Block.toolUse i n a) =>
        legacyLoop sess rest
          (msgs ++ [LMessage.assistant r.content,
                    LMessage.userResults [⟨i, sess n a⟩]])
          (calls + 1)
      | _ => none
    else
      some (msgs, r, calls + 1)

/-- run_weather_query of the legacy root-level client (src/client.py lines
22-125), with the same final-text extraction. -/
def legacyRun (query : String) (responses : List ModelResponse)
    (sess : SessionFn) : Option (List LMessage × String × Nat) :=
  match legacyLoop sess responses [LMessage.userText query] 0 with
  | some (msgs, final, calls) => some (msgs, finalText final.content, calls)
  | none => none

/-- One run of interactive_mode (src/src/client.py lines 157-176) over a
finite stdin script, fuel-bounded so the function is total.  Returns some
exit code when the loop breaks (the process then exits 0) and none when
the fuel runs out with the loop still running.  Once the script is
exhausted, input() raises EOFError on every further call; EOFError is not
KeyboardInterrupt, so the generic except-Exception handler catches it,
prints the error and continues the loop. -/
def interactiveRun : Nat → List String → Option Nat
  | 0, _ => none
  | fuel + 1, [] => interactiveRun fuel []
  | fuel + 1, line :: rest =>
    let query := pyStrip line
    if query = "" then interactiveRun fuel rest
    else if ["quit", "exit", "q"].contains (pyLower query) then some 0
    else interactiveRun fuel rest

/-- The two entry modes of the client. -/
inductive ClientMode where
  | singleQuery (q : String)
  | interactive
deriving DecidableEq

/-- main (src/src/client.py lines 179-190): sys.argv carries the program
name first; further elements joined with spaces form a single query,
otherwise the interactive loop runs. -/
def mainMode (argv : List String) : ClientMode :=
  if argv.length > 1 then .singleQuery (String.intercalate " " argv.tail)
  else .interactive

/-! ## Helper lemmas -/

/-- Result shape invariant of the tool dispatcher body: every success
payload is a single text block and at most one upstream call is made. -/
def GoodShape (r : Except PyErr (List TextContent) × Nat) : Prop :=
  (∀ l, r.1 = Except.ok l → ∃ s, l = [TextContent.mk s]) ∧ r.2 ≤ 1

lemma mapSingleton_shape (e : Except PyErr String) (l : List TextContent)
    (h : e.map (fun s => [TextContent.mk s]) = Except.ok l) :
    ∃ s, l = [TextContent.mk s] := by
  cases e with
  | ok a =>
    refine ⟨a, ?_⟩
    simp only [Except.map] at h
    exact (Except.ok.inj h).symm
  | error e => simp [Except.map] at h

lemma weatherBranch_shape (args : Args) (net : Net) :
    GoodShape (weatherBranch args net) := by
  unfold GoodShape weatherBranch
  rcases h : args.lookup "city" with _ | city
  · simp
  · simp only
    by_cases ht : jTruthy city
    · simp only [ht, if_true]
      rcases hf : fetch_weather city net with e | data <;> simp only [hf]
      · simp
      · exact ⟨fun l hl => mapSingleton_shape _ _ hl, Nat.le_refl 1⟩
    · simp [ht]

lemma forecastBranch_shape (args : Args) (net : Net) :
    GoodShape (forecastBranch args net) := by
  unfold GoodShape forecastBranch
  rcases h : args.lookup "city" with _ | city
  · simp
  · simp only
    by_cases ht : jTruthy city
    · simp only [ht, if_true]
      rcases hf : fetch_forecast city net with e | data <;> simp only [hf]
      · simp
      · exact ⟨fun l hl => mapSingleton_shape _ _ hl, Nat.le_refl 1⟩
    · simp [ht]

lemma cryptoBranch_shape (args : Args) (net : Net) :
    GoodShape (cryptoBranch args net) := by
  unfold GoodShape cryptoBranch
  rcases h : args.lookup "symbol" with _ | symbol
  · simp
  · simp only
    by_cases ht : jTruthy symbol
    · simp only [ht, if_true]
      cases symbol with
      | str s =>
        rcases hf : fetch_crypto_prices s net with e | data <;> simp only [hf]
        · simp
        · exact ⟨fun l hl => mapSingleton_shape _ _ hl, Nat.le_refl 1⟩
      | null => simp
      | bool b => simp
      | num q => simp
      | arr xs => simp
      | obj fs => simp
    · simp [ht]

lemma exchangeBranch_shape (args : Args) (net : Net) :
    GoodShape (exchangeBranch args net) := by
  unfold GoodShape exchangeBranch
  simp only
  by_cases ht : (jTruthy (((args.lookup "from_currency").getD .null)) &&
      jTruthy (((args.lookup "to_currency").getD .null))) = true
  · simp only [ht, if_true]
    rcases hu : jUpper ((args.lookup "from_currency").getD .null) with e | fromU <;>
      simp only [hu]
    · simp
    · rcases hf : fetch_exchange_rate fromU net with e | data <;> simp only [hf]
      · simp
      · exact ⟨fun l hl => mapSingleton_shape _ _ hl, Nat.le_refl 1⟩
  · simp [ht]

lemma callToolAux_shape (name : String) (args : Args) (net : Net) :
    GoodShape (callToolAux name args net) := by
  unfold callToolAux
  split
  · exact weatherBranch_shape args net
  · split
    · exact forecastBranch_shape args net
    · split
      · exact cryptoBranch_shape args net
      · split
        · exact exchangeBranch_shape args net
        · exact ⟨fun l hl => ⟨_, (Except.ok.inj hl).symm⟩, by omega⟩

/-! ## Claim theorems -/

/-- C3: for every tool name, argument mapping and upstream behavior,
call_tool returns exactly one text content block (a success or an error
text) and performs at most one upstream HTTP call; no exception escapes
its boundary — upstream HTTP status failures, timeouts and malformed
bodies all end as error text via the reified except clauses. -/
theorem call_tool_total_singleton (name : String) (args : Args) (net : Net) :
    (∃ s, (call_tool name args net).1 = [TextContent.mk s]) ∧
    (call_tool name args net).2 ≤ 1 := by
  obtain ⟨hok, hcount⟩ := callToolAux_shape name args net
  constructor
  · rcases hr : (callToolAux name args net).1 with e | l
    · cases e with
      | httpStatusError code msg =>
        by_cases h4 : code = 404
        · refine ⟨"Error: Resource not found (404)", ?_⟩
          simp [call_tool, hr, h4]
        · refine ⟨"Error: API request failed - " ++ msg, ?_⟩
          simp [call_tool, hr, h4]
      | exc msg =>
        refine ⟨"Error: " ++ msg, ?_⟩
        simp [call_tool, hr]
    · obtain ⟨s, hs⟩ := hok l hr
      refine ⟨s, ?_⟩
      simp [call_tool, hr, hs]
  · exact hcount

lemma toolResultsFor_ids (sess : SessionFn) (blocks : List Block) :
    (toolResultsFor sess blocks).map ToolResult.tool_use_id
      = (blocks.filter Block.isToolUse).map Block.idOf := by
  induction blocks with
  | nil => rfl
  | cons b bs ih =>
    cases b with
    | text s => simpa [toolResultsFor, List.filter, Block.isToolUse] using ih
    | toolUse i n a =>
      simp only [toolResultsFor, List.filter, Block.isToolUse, List.map_cons] at ih ⊢
      simpa [Block.idOf] using ih

/-- C1 (amended, packaged client src/src/client.py): when a turn's
response has stop_reason tool_use, the loop appends — before consuming the
next model response — exactly the assistant message and one user message
whose tool_results carry, in order, exactly one entry per tool_use block
of the turn, each with that block's id; this holds for any number of
tool_use blocks in the turn. -/
theorem tool_results_paired_per_turn (sess : SessionFn) (r : ModelResponse)
    (rest : List ModelResponse) (msgs : List Message) (calls : Nat)
    (h : r.stop_reason = "tool_use") :
    runLoop sess (r :: rest) msgs calls
      = runLoop sess rest
          (msgs ++ [Message.assistant r.content,
                    Message.userResults (toolResultsFor sess r.content)])
          (calls + 1) ∧
    (toolResultsFor sess r.content).map ToolResult.tool_use_id
      = (r.content.filter Block.isToolUse).map Block.idOf :=
  ⟨by simp [runLoop, h], toolResultsFor_ids sess r.content⟩

theorem tool_results_paired_per_turn_witness :
    runLoop (fun _ _ => [⟨"ok"⟩])
        [⟨"tool_use", [Block.toolUse "toolu_1" "get_crypto_price" [],
                       Block.toolUse "toolu_2" "get_exchange_rate" []]⟩] [] 0
      = runLoop (fun _ _ => [⟨"ok"⟩]) []
          ([] ++ [Message.assistant
                    [Block.toolUse "toolu_1" "get_crypto_price" [],
                     Block.toolUse "toolu_2" "get_exchange_rate" []],
                  Message.userResults (toolResultsFor (fun _ _ => [⟨"ok"⟩])
                    [Block.toolUse "toolu_1" "get_crypto_price" [],
                     Block.toolUse "toolu_2" "get_exchange_rate" []])]) (0 + 1) ∧
    (toolResultsFor (fun _ _ => [⟨"ok"⟩])
        [Block.toolUse "toolu_1" "get_crypto_price" [],
         Block.toolUse "toolu_2" "get_exchange_rate" []]).map ToolResult.tool_use_id
      = ["toolu_1", "toolu_2"] := by
  have h := tool_results_paired_per_turn (fun _ _ => [⟨"ok"⟩])
    ⟨"tool_use", [Block.toolUse "toolu_1" "get_crypto_price" [],
                  Block.toolUse "toolu_2" "get_exchange_rate" []]⟩ [] [] 0 rfl
  exact ⟨h.1, h.2.trans (by rfl)⟩

/-- C1 counterexample: in the legacy root-level client (src/client.py) a
turn whose response carries two tool_use blocks gets exactly one
tool_result appended (for the first block only, here toolu_A), although
the turn has two tool-invocation requests — the claim as stated fails on
that loop. -/
theorem legacy_single_result_counterexample :
    legacyRun "both prices"
      [⟨"tool_use", [Block.text "using tools",
                     Block.toolUse "toolu_A" "get_crypto_price"
                       [("symbol", JVal.str "btc")],
                     Block.toolUse "toolu_B" "get_exchange_rate" []]⟩,
       ⟨"end_turn", [Block.text "done"]⟩]
      (fun _ _ => [⟨"42"⟩])
      = some ([LMessage.userText "both prices",
               LMessage.assistant [Block.text "using tools",
                     Block.toolUse "toolu_A" "get_crypto_price"
                       [("symbol", JVal.str "btc")],
                     Block.toolUse "toolu_B" "get_exchange_rate" []],
               LMessage.userResults [⟨"toolu_A", [⟨"42"⟩]⟩]],
              "done", 2) ∧
    ([Block.text "using tools",
      Block.toolUse "toolu_A" "get_crypto_price" [("symbol", JVal.str "btc")],
      Block.toolUse "toolu_B" "get_exchange_rate" []].filter
        Block.isToolUse).length = 2 :=
  ⟨rfl, rfl⟩

lemma runLoop_tool_turns (sess : SessionFn) (pre : List ModelResponse)
    (final : ModelResponse) :
    ∀ (msgs : List Message) (calls : Nat),
    (∀ r ∈ pre, r.stop_reason = "tool_use") →
    final.stop_reason ≠ "tool_use" →
    ∃ msgs2, runLoop sess (pre ++ [final]) msgs calls
        = some (msgs2, final, calls + pre.length + 1) ∧
      msgs2.length = msgs.length + 2 * pre.length := by
  induction pre with
  | nil =>
    intro msgs calls h1 h2
    exact ⟨msgs, by simp [runLoop, h2], by simp⟩
  | cons r rest ih =>
    intro msgs calls h1 h2
    have hr : r.stop_reason = "tool_use" := h1 r (by simp)
    have hrest : ∀ x ∈ rest, x.stop_reason = "tool_use" :=
      fun x hx => h1 x (by simp [hx])
    obtain ⟨m2, hm, hlen⟩ := ih
      (msgs ++ [Message.assistant r.content,
                Message.userResults (toolResultsFor sess r.content)])
      (calls + 1) hrest h2
    refine ⟨m2, ?_, ?_⟩
    · rw [List.cons_append, runLoop, if_pos hr, hm]
      refine congrArg some ?_
      refine congrArg (Prod.mk m2) (congrArg (Prod.mk final) ?_)
      simp only [List.length_cons]
      omega
    · simp only [List.length_append, List.length_cons, List.length_nil]
        at hlen ⊢
      omega

/-- C4: a query answered after N tool-triggering turns followed by a final
turn without tool use ends with a messages list of length 1 + 2N — the
initial user message plus one assistant and one tool-results user message
per tool turn (the final response is never appended). -/
theorem conversation_length_after_n_turns (q : String) (sess : SessionFn)
    (pre : List ModelResponse) (final : ModelResponse)
    (h1 : ∀ r ∈ pre, r.stop_reason = "tool_use")
    (h2 : final.stop_reason ≠ "tool_use") :
    ∃ msgs, run_weather_query q (pre ++ [final]) sess
        = some (msgs, finalText final.content, pre.length + 1) ∧
      msgs.length = 1 + 2 * pre.length := by
  obtain ⟨m2, hm, hlen⟩ :=
    runLoop_tool_turns sess pre final [Message.userText q] 0 h1 h2
  refine ⟨m2, ?_, by simpa using hlen⟩
  have : (0 : Nat) + pre.length + 1 = pre.length + 1 := by omega
  rw [run_weather_query, hm, this]

theorem conversation_length_after_n_turns_witness :
    ∃ msgs, run_weather_query "price and weather"
        ([⟨"tool_use", [Block.toolUse "toolu_1" "get_crypto_price" []]⟩,
          ⟨"tool_use", [Block.toolUse "toolu_2" "get_current_weather" []]⟩]
          ++ [⟨"end_turn", [Block.text "All done"]⟩])
        (fun _ _ => [⟨"data"⟩])
        = some (msgs, finalText [Block.text "All done"], 2 + 1) ∧
      msgs.length = 1 + 2 * 2 := by
  have h := conversation_length_after_n_turns "price and weather"
    (fun _ _ => [⟨"data"⟩])
    [⟨"tool_use", [Block.toolUse "toolu_1" "get_crypto_price" []]⟩,
     ⟨"tool_use", [Block.toolUse "toolu_2" "get_current_weather" []]⟩]
    ⟨"end_turn", [Block.text "All done"]⟩
    (by intro r hr
        simp only [List.mem_cons, List.not_mem_nil, or_false] at hr
        rcases hr with rfl | rfl <;> rfl)
    (by intro hcontra; exact absurd hcontra (by decide))
  simpa using h

/-- C5: when the first model response has stop_reason other than tool_use,
the loop makes exactly one model call, appends nothing to the
conversation, and the answer is the first text block of that response. -/
theorem zero_tool_turn_single_call (q : String) (sess : SessionFn)
    (final : ModelResponse) (rest : List ModelResponse)
    (h : final.stop_reason ≠ "tool_use") :
    run_weather_query q (final :: rest) sess
      = some ([Message.userText q], finalText final.content, 1) ∧
    ∀ b, final.content.find? Block.hasText = some b →
      finalText final.content = Block.textOf b := by
  constructor
  · simp [run_weather_query, runLoop, h]
  · intro b hb
    simp [finalText, hb]

theorem zero_tool_turn_single_call_witness :
    run_weather_query "hello" [⟨"end_turn", [Block.text "Hi there"]⟩]
        (fun _ _ => [⟨"unused"⟩])
      = some ([Message.userText "hello"],
              finalText [Block.text "Hi there"], 1) ∧
    ∀ b, ([Block.text "Hi there"] : List Block).find? Block.hasText = some b →
      finalText [Block.text "Hi there"] = Block.textOf b :=
  zero_tool_turn_single_call "hello" (fun _ _ => [⟨"unused"⟩])
    ⟨"end_turn", [Block.text "Hi there"]⟩ [] (by intro hc; exact absurd hc (by decide))

/-- C6: the answer is the first text-bearing block of the final response;
when the final response has no text block the sentinel
"No response generated" is returned instead of failing. -/
theorem final_text_extraction_fallback (q : String) (sess : SessionFn)
    (final : ModelResponse) (rest : List ModelResponse)
    (h : final.stop_reason ≠ "tool_use") :
    (final.content.find? Block.hasText = none →
      run_weather_query q (final :: rest) sess
        = some ([Message.userText q], "No response generated", 1)) ∧
    (∀ b, final.content.find? Block.hasText = some b →
      run_weather_query q (final :: rest) sess
        = some ([Message.userText q], Block.textOf b, 1)) := by
  constructor
  · intro hnone
    simp [run_weather_query, runLoop, h, finalText, hnone]
  · intro b hb
    simp [run_weather_query, runLoop, h, finalText, hb]

theorem final_text_extraction_fallback_witness :
    run_weather_query "hi"
        [⟨"end_turn", [Block.toolUse "toolu_9" "get_crypto_price" []]⟩]
        (fun _ _ => [⟨"unused"⟩])
      = some ([Message.userText "hi"], "No response generated", 1) :=
  (final_text_extraction_fallback "hi" (fun _ _ => [⟨"unused"⟩])
    ⟨"end_turn", [Block.toolUse "toolu_9" "get_crypto_price" []]⟩ []
    (by intro hc; exact absurd hc (by decide))).1 (by rfl)

/-- C2 (evidence for the code_bug): with zero extra arguments the client
enters interactive mode, and quit/exit/q in any letter case leave the loop
with exit code 0; but at end-of-input the loop never exits — input()
raises EOFError on every call once stdin is exhausted, the generic
except-Exception handler catches it and continues, so no fuel suffices to
leave the loop, contradicting the claimed exit on end-of-input. -/
theorem interactive_exit_behavior :
    (∀ fuel : Nat, interactiveRun fuel [] = none) ∧
    interactiveRun 1 ["quit"] = some 0 ∧
    interactiveRun 1 ["EXIT"] = some 0 ∧
    interactiveRun 1 [" Q "] = some 0 ∧
    mainMode ["client.py"] = ClientMode.interactive := by
  refine ⟨fun fuel => ?_, by decide, by decide, by decide, by decide⟩
  induction fuel with
  | zero => rfl
  | succ n ih => exact ih

/-- C7: a tool name outside the catalog makes call_tool return the
Unknown tool error text with no upstream call, and the client loop still
dispatches a tool_use block carrying such a name to the session — the
block is never dropped, so it still gets a paired result. -/
theorem unknown_tool_error_and_dispatch (name : String) (args : Args)
    (net : Net) (sess : SessionFn) (i : String) (a : Args) (bs : List Block)
    (h : name ∉ ["get_current_weather", "get_weather_forecast",
                 "get_crypto_price", "get_exchange_rate"]) :
    call_tool name args net
      = ([⟨"Error: Unknown tool \x27" ++ name ++ "\x27"⟩], 0) ∧
    toolResultsFor sess (Block.toolUse i name a :: bs)
      = ⟨i, concatTexts (sess name a)⟩ :: toolResultsFor sess bs := by
  simp only [List.mem_cons, List.not_mem_nil, or_false, not_or] at h
  obtain ⟨h1, h2, h3, h4⟩ := h
  constructor
  · simp [call_tool, callToolAux, h1, h2, h3, h4]
  · simp [toolResultsFor, List.filter, Block.isToolUse]

theorem unknown_tool_error_and_dispatch_witness :
    call_tool "get_stock_price" [("symbol", JVal.str "AAPL")]
        ⟨fun _ => .raise "e", fun _ => .raise "e",
         fun _ => .raise "e", fun _ => .raise "e"⟩
      = ([⟨"Error: Unknown tool \x27get_stock_price\x27"⟩], 0) ∧
    toolResultsFor (fun _ _ => [⟨"Error: Unknown tool \x27get_stock_price\x27"⟩])
        [Block.toolUse "toolu_7" "get_stock_price" [("symbol", JVal.str "AAPL")]]
      = [⟨"toolu_7", concatTexts
            ((fun _ _ => [⟨"Error: Unknown tool \x27get_stock_price\x27"⟩])
              "get_stock_price" ([("symbol", JVal.str "AAPL")] : Args))⟩] :=
  unknown_tool_error_and_dispatch "get_stock_price"
    [("symbol", JVal.str "AAPL")]
    ⟨fun _ => .raise "e", fun _ => .raise "e",
     fun _ => .raise "e", fun _ => .raise "e"⟩
    (fun _ _ => [⟨"Error: Unknown tool \x27get_stock_price\x27"⟩])
    "toolu_7" [("symbol", JVal.str "AAPL")] [] (by decide)

/-- C8: the current-weather and forecast branches return the error text
"Error: City name is required" when the city argument is absent or falsy
(in particular the empty string), performing zero upstream calls. -/
theorem missing_city_error_no_upstream (name : String) (args : Args)
    (net : Net)
    (hn : name = "get_current_weather" ∨ name = "get_weather_forecast")
    (hc : ∀ v, args.lookup "city" = some v → jTruthy v = false) :
    call_tool name args net = ([⟨"Error: City name is required"⟩], 0) := by
  rcases hn with rfl | rfl
  · rcases h : args.lookup "city" with _ | v
    · simp [call_tool, callToolAux, weatherBranch, h]
    · have hv := hc v h
      simp [call_tool, callToolAux, weatherBranch, h, hv]
  · rcases h : args.lookup "city" with _ | v
    · simp [call_tool, callToolAux, forecastBranch, h]
    · have hv := hc v h
      simp [call_tool, callToolAux, forecastBranch, h, hv]

theorem missing_city_error_no_upstream_witness :
    call_tool "get_current_weather" [("city", JVal.str "")]
        ⟨fun _ => .raise "e", fun _ => .raise "e",
         fun _ => .raise "e", fun _ => .raise "e"⟩
      = ([⟨"Error: City name is required"⟩], 0) ∧
    call_tool "get_weather_forecast" []
        ⟨fun _ => .raise "e", fun _ => .raise "e",
         fun _ => .raise "e", fun _ => .raise "e"⟩
      = ([⟨"Error: City name is required"⟩], 0) := by
  constructor
  · refine missing_city_error_no_upstream _ _ _ (Or.inl rfl) ?_
    intro v hv
    simp only [List.lookup] at hv
    rcases hv with ⟨rfl⟩ | _
    rfl
  · refine missing_city_error_no_upstream _ _ _ (Or.inr rfl) ?_
    intro v hv
    simp at hv

/-- C9: the crypto branch resolves the provider coin identifier by
lowercasing the symbol and translating it through the static CRYPTO_IDS
table, using the lowercased raw symbol itself when the table has no entry;
fetch_crypto_prices consults exactly that identifier upstream. -/
theorem crypto_symbol_mapping (s : String) (net : Net) :
    (∀ cid, CRYPTO_IDS.lookup (pyLower s) = some cid → resolveCryptoId s = cid) ∧
    (CRYPTO_IDS.lookup (pyLower s) = none → resolveCryptoId s = pyLower s) ∧
    fetch_crypto_prices s net = runFetch (net.crypto (resolveCryptoId s)) := by
  refine ⟨fun cid h => ?_, fun h => ?_, rfl⟩
  · simp [resolveCryptoId, h]
  · simp [resolveCryptoId, h]

theorem crypto_symbol_mapping_witness :
    resolveCryptoId "BTC" = "bitcoin" ∧ resolveCryptoId "floki" = "floki" := by
  constructor
  · exact (crypto_symbol_mapping "BTC"
      ⟨fun _ => .raise "e", fun _ => .raise "e",
       fun _ => .raise "e", fun _ => .raise "e"⟩).1 "bitcoin" (by decide)
  · exact ((crypto_symbol_mapping "floki"
      ⟨fun _ => .raise "e", fun _ => .raise "e",
       fun _ => .raise "e", fun _ => .raise "e"⟩).2.1 (by decide)).trans
      (by decide)

/-- C10: when the upstream crypto response lacks the resolved coin
identifier as a key, the "N/A" string defaults flow into the f-type
numeric format codes, the formatting raises, and the catch-all converts
this into an error text block — so the tool returns error text rather
than a listing with N/A placeholders. -/
theorem crypto_unknown_id_error_text (s : String) (net : Net)
    (m : List (String × JVal)) (hs : s.isEmpty = false)
    (hnet : net.crypto (resolveCryptoId s) = Upstream.ok (JVal.obj m))
    (hm : m.lookup (resolveCryptoId s) = none) :
    call_tool "get_crypto_price" [("symbol", JVal.str s)] net
      = ([⟨"Error: Unknown format code \x27f\x27 for object of type \x27str\x27"⟩],
         1) := by
  have ht : jTruthy (JVal.str s) = true := by simp [jTruthy, hs]
  simp [call_tool, callToolAux, cryptoBranch, fetch_crypto_prices, runFetch,
    hnet, ht, List.lookup, jGetD, hm, formatCrypto, pyFmtF, Except.map]
  rfl

theorem crypto_unknown_id_error_text_witness :
    call_tool "get_crypto_price" [("symbol", JVal.str "notacoin")]
        ⟨fun _ => .raise "e", fun _ => .raise "e",
         fun _ => .ok (JVal.obj []), fun _ => .raise "e"⟩
      = ([⟨"Error: Unknown format code \x27f\x27 for object of type \x27str\x27"⟩],
         1) :=
  crypto_unknown_id_error_text "notacoin"
    ⟨fun _ => .raise "e", fun _ => .raise "e",
     fun _ => .ok (JVal.obj []), fun _ => .raise "e"⟩
    [] (by decide) rfl rfl

end WeatherMcp
